import Mathlib

/-!
Verification development for the biometric access-control service
(src/biometric-service.py and src/server/biometric-python-bridge.py).

The Python sources are embedded shallowly: pure decision logic becomes Lean
functions; side effects (relay unlocks, attendance POSTs, device set_user
calls, console logs) become explicit values in the results;
exceptions raised by external calls (database, device) become `Except`
inputs or Boolean failure oracles; wall-clock datetimes become `Int`
(seconds), and ISO-8601 date parsing is abstracted by an oracle
`parse : String → Option Int` where `none` models a raised parse error.
-/

namespace Biometric

/-- A row of the `members` table as the SQLite query in `get_members_from_db`
sees it (src/biometric-service.py lines 62-68).  `none` models SQL NULL.
String-typed columns are modelled after the Python str() view of the value. -/
structure MemberRow where
  id : Int
  name : String
  biometric_id : Option String
  status : String
  start_date : Option String
  expiry_date : Option String
  payment_status : String
  deleted_at : Option String
deriving Repr, DecidableEq

/-- The SQL WHERE clause of the query (lines 65-67):
biometric_id is neither NULL nor the empty string, and deleted_at is NULL or the empty string. -/
def sqlFilter (r : MemberRow) : Bool :=
  r.biometric_id.isSome && r.biometric_id != some "" &&
    (r.deleted_at == none || r.deleted_at == some "")

/-- Drop leading whitespace characters from a character list. -/
def dropLeadingWs : List Char → List Char
  | [] => []
  | c :: cs => if c.isWhitespace then dropLeadingWs cs else c :: cs

/-- The Python str.strip method: remove leading and trailing whitespace.
Implemented by structural recursion over the character list so that it
evaluates inside the kernel. -/
def pyStrip (s : String) : String :=
  ⟨(dropLeadingWs (dropLeadingWs s.data).reverse).reverse⟩

/-- `str(row["biometric_id"]).strip()` (line 80).  For a NULL column (never
produced by the SQL filter) we take the empty string. -/
def trimId (r : MemberRow) : String := pyStrip (r.biometric_id.getD "")

/-- The per-member snapshot dict stored into `member_map` (lines 84-91). -/
structure MemberInfo where
  id : Int
  name : String
  status : String
  start_date : Option String
  expiry_date : Option String
  payment_status : String
deriving Repr, DecidableEq

/-- Building the `member_map` entry from a row (lines 84-91). -/
def memberInfoOf (r : MemberRow) : MemberInfo :=
  ⟨r.id, r.name, r.status, r.start_date, r.expiry_date, r.payment_status⟩

/-- `status_ok = row["status"] == "active"` (line 94). -/
def status_ok (r : MemberRow) : Bool := r.status == "active"

/-- Lines 96-102: `start_ok` defaults to True; when `row["start_date"]` is
truthy (non-None, non-empty) the code tries to parse it (after replacing
"Z" with "+00:00") and on success requires `now >= start_date`; a parse
failure (`except: pass`) leaves `start_ok` True.  `parse` returning `none`
models the raised exception. -/
def start_ok (parse : String → Option Int) (now : Int) (r : MemberRow) : Bool :=
  match r.start_date with
  | none => true
  | some s =>
    if s = "" then true
    else
      match parse (s.replace "Z" "+00:00") with
      | none => true
      | some d => decide (d ≤ now)

/-- Lines 104-110: symmetric to `start_ok`, requiring `now <= expiry_date`
when the field is present and parses. -/
def end_ok (parse : String → Option Int) (now : Int) (r : MemberRow) : Bool :=
  match r.expiry_date with
  | none => true
  | some s =>
    if s = "" then true
    else
      match parse (s.replace "Z" "+00:00") with
      | none => true
      | some d => decide (now ≤ d)

/-- `payment_ok = row["payment_status"] not in ["pending", "overdue"]` (line 112). -/
def payment_ok (r : MemberRow) : Bool :=
  !(["pending", "overdue"].contains r.payment_status)

/-- `allowed = status_ok and start_ok and end_ok and payment_ok` (line 114). -/
def memberAllowed (parse : String → Option Int) (now : Int) (r : MemberRow) : Bool :=
  status_ok r && start_ok parse now r && end_ok parse now r && payment_ok r

/-- The triple built by `get_members_from_db`: `allowed_users`,
`denied_users` (Python lists, order-preserving), and `member_map`
(Python dict; modelled as an association list where the most recent
insertion is at the head, so lookups that take the first hit match
the later-assignment-wins semantics of Python dicts). -/
structure Classification where
  allowed_users : List String
  denied_users : List String
  member_map : List (String × MemberInfo)
deriving Repr, DecidableEq

/-- One iteration of the `for row in rows` loop (lines 79-119): skip rows
whose stripped biometric id is empty, otherwise record the snapshot in
`member_map` and append the id to `allowed_users` or `denied_users`
according to `memberAllowed`. -/
def processRow (parse : String → Option Int) (now : Int)
    (acc : Classification) (r : MemberRow) : Classification :=
  let biometric_id := trimId r
  if biometric_id = "" then acc
  else
    let acc1 : Classification :=
      { acc with member_map := (biometric_id, memberInfoOf r) :: acc.member_map }
    if memberAllowed parse now r then
      { acc1 with allowed_users := acc1.allowed_users ++ [biometric_id] }
    else
      { acc1 with denied_users := acc1.denied_users ++ [biometric_id] }

/-- The classification computed from the rows the SQL query returns. -/
def classifyRows (parse : String → Option Int) (now : Int)
    (rows : List MemberRow) : Classification :=
  (rows.filter sqlFilter).foldl (processRow parse now) ⟨[], [], []⟩

/-- `get_members_from_db` (lines 45-126).  `db_exists` models
`os.path.exists(db_path)`; `query` models the sqlite connect/execute/fetch
block, with `Except.error` standing for any raised exception.  The second
component collects the warning lines printed on the two failure paths
(lines 53 and 125); the informational summary print of the success path is
not modelled.  The function is total: no error propagates to the caller. -/
def get_members_from_db (parse : String → Option Int) (now : Int)
    (db_exists : Bool) (query : Except String (List MemberRow)) :
    Classification × List String :=
  if !db_exists then (⟨[], [], []⟩, ["Database not found"])
  else
    match query with
    | .error e => (⟨[], [], []⟩, ["Database error: " ++ e])
    | .ok rows => (classifyRows parse now rows, [])

/-- Python dict lookup `member_map.get(uid, {})` (line 216): `none` models
the empty default dict.  The association list puts later insertions first,
so taking the first hit matches dict semantics. -/
def dictGet (m : List (String × MemberInfo)) (k : String) : Option MemberInfo :=
  (m.find? (fun p => p.1 == k)).map (fun p => p.2)

/-- An attendance event as POSTed by `send_attendance_event` (lines 184-206);
the timestamp field is not modelled (no claim concerns it). -/
structure AttendanceReport where
  biometricId : String
  memberId : Option Int
  memberName : Option String
  allowed : Bool
  reason : String
deriving Repr, DecidableEq

/-- The observable outcome of one `process_scan` call: how many times
`conn.unlock` was invoked, and which attendance reports were emitted. -/
structure ScanResult where
  unlock_attempts : Nat
  reports : List AttendanceReport
deriving Repr, DecidableEq

/-- `process_scan` (lines 208-256).  `unlock_ok` models whether
`conn.unlock(UNLOCK_SECS)` returns normally (`true`) or raises (`false`);
the raise is caught inside `process_scan` (lines 232-234), so the embedding
is a total function.  `send_attendance_event` swallows its own errors, so a
report value here means the POST was attempted. -/
def process_scan (unlock_ok : Bool) (uid : String)
    (allowed_users denied_users : List String)
    (member_map : List (String × MemberInfo)) : ScanResult :=
  let member_info := dictGet member_map uid
  let member_id := member_info.map (fun m => m.id)
  let member_name : Option String :=
    match member_info with
    | some m => some m.name
    | none => some ("User " ++ uid)
  if allowed_users.contains uid then
    if unlock_ok then
      ⟨1, [⟨uid, member_id, member_name, true, "allowed"⟩]⟩
    else
      ⟨1, [⟨uid, member_id, member_name, false, "relay_error"⟩]⟩
  else if denied_users.contains uid then
    let reason : String :=
      match member_info with
      | none => "denied"
      | some m =>
        if m.status != "active" then "inactive"
        else if ["pending", "overdue"].contains m.payment_status then
          "payment_" ++ m.payment_status
        else "expired"
    ⟨0, [⟨uid, member_id, member_name, false, reason⟩]⟩
  else
    ⟨0, [⟨uid, none, none, false, "unknown_user"⟩]⟩

/-- `event_key = f"{uid}-{ts}"` (line 337); the timestamp is modelled by its
`str()` rendering. -/
def event_key (uid : String) (ts : String) : String := uid ++ "-" ++ ts

/-- Lines 340-344: add the key to `seen_events`, then if the set exceeds 500
entries drop `list(seen_events)[0]`.  The Python set is modelled as an
insertion-ordered list of distinct keys (the caller only inserts keys not
already present), with the evicted arbitrary element taken to be the oldest. -/
def dedupInsert (seen : List String) (key : String) : List String :=
  let seen1 := seen ++ [key]
  if seen1.length > 500 then seen1.tail else seen1

/-- One event of the monitoring loop of `main` (lines 327-346): skip empty
uids, skip events whose dedup key is already in `seen_events`, otherwise
record the key and invoke `process_scan`.  The second component holds the
results of the `process_scan` invocations made for this delivery (empty =
`process_scan` not invoked, hence no relay action and no report). -/
def mainMonitorStep (unlock_ok : Bool) (allowed_users denied_users : List String)
    (member_map : List (String × MemberInfo))
    (seen : List String) (uid ts : String) : List String × List ScanResult :=
  if uid = "" then (seen, [])
  else
    let key := event_key uid ts
    if seen.contains key then (seen, [])
    else
      (dedupInsert seen key,
       [process_scan unlock_ok uid allowed_users denied_users member_map])

/-- State the supervisor loop of `main` carries across iterations that is
relevant to the periodic refresh (lines 266-269): the `device_configured`
flag, the time of the last successful database load, and the current
classification. -/
structure SupervisorState where
  device_configured : Bool
  last_db_refresh : Int
  classification : Classification
deriving Repr, DecidableEq

/-- How many database reloads and access-group synchronizations one setup
phase performed. -/
structure SetupTrace where
  db_reloads : Nat
  access_syncs : Nat
deriving Repr, DecidableEq

/-- `db_refresh_interval = 300` seconds (line 270). -/
def db_refresh_interval : Int := 300

/-- The setup phase of one iteration of the while loop of `main`, entered right
after a successful connect (lines 291-315): if more than
`db_refresh_interval` seconds have passed since `last_db_refresh`, reload
the classification (`fresh` models the value `get_members_from_db` returns
now), clear `device_configured` and stamp the refresh time; then disable
the device (best-effort, not modelled), run
`configure_device_access_groups` exactly when `device_configured` is
false, set the flag, and re-enable.  None of these steps can raise: every
device call and the whole configure routine catch their exceptions. -/
def setupPhase (st : SupervisorState) (now : Int) (fresh : Classification) :
    SupervisorState × SetupTrace :=
  let refresh := now - st.last_db_refresh > db_refresh_interval
  let st1 : SupervisorState :=
    if refresh then
      { st with classification := fresh, device_configured := false, last_db_refresh := now }
    else st
  let sync := !st1.device_configured
  let st2 : SupervisorState :=
    if sync then { st1 with device_configured := true } else st1
  (st2, ⟨if refresh then 1 else 0, if sync then 1 else 0⟩)

/-- A failing iteration of the while loop of `main`, as seen by the backoff
logic: either `connect_device()` raised (`connectFail`), or the connect
succeeded — which resets `reconnect_delay` to 2 at line 324 — and the
monitoring loop later raised (`monitorFail`). -/
inductive SupervisorEvent where
  | connectFail
  | monitorFail
deriving Repr, DecidableEq

/-- The effect of one failing iteration on `reconnect_delay` (initial value
2, line 267): the except branch (lines 352-356) sleeps for the current
delay and then sets `reconnect_delay = min(reconnect_delay * 2, 60)`.  On a
`monitorFail` iteration the delay was first reset to 2 (line 324) before
the failure.  Result: the new delay and the list of sleeps performed. -/
def supervisorStep (delay : Nat) (ev : SupervisorEvent) : Nat × List Nat :=
  match ev with
  | .connectFail => (min (delay * 2) 60, [delay])
  | .monitorFail =>
    let d := 2
    (min (d * 2) 60, [d])

/-- Folding `supervisorStep` over a sequence of failing iterations,
collecting every sleep in order. -/
def supervisorRun (delay : Nat) : List SupervisorEvent → Nat × List Nat
  | [] => (delay, [])
  | ev :: rest =>
    let s := supervisorStep delay ev
    let r := supervisorRun s.1 rest
    (r.1, s.2 ++ r.2)

/-- A user enrolled on the terminal, as `conn.get_users()` returns it
(fields used by `configure_device_access_groups`, lines 135-172). -/
structure DeviceUser where
  uid : Nat
  user_id : String
  name : String
  password : String
deriving Repr, DecidableEq

/-- `user_dict = {str(u.user_id): u for u in all_users}` (line 136),
modelled as an association list; only key membership is consumed below. -/
def user_dict (users : List DeviceUser) : List (String × DeviceUser) :=
  users.map (fun u => (u.user_id, u))

/-- `uid in user_dict` (lines 142, 160). -/
def dictHas (d : List (String × DeviceUser)) (k : String) : Bool :=
  d.any (fun p => p.1 == k)

/-- One `conn.set_user(...)` invocation, recorded by the join key and the
group it assigns. -/
structure SetUserCall where
  user_id : String
  group_id : String
deriving Repr, DecidableEq

/-- One of the two `for uid in ...` loops of
`configure_device_access_groups` (lines 141-157 and 159-174): identifiers
absent from `user_dict` are skipped with no output; for present ones
`set_user` is attempted, and if it raises (`set_user_fails uid group_id`)
the exception is caught and a warning logged, after which the loop
continues with the remaining identifiers.  Result: the `set_user` calls
attempted, in order, and the warnings logged. -/
def assignGroup (set_user_fails : String → String → Bool)
    (d : List (String × DeviceUser)) (group_id : String) :
    List String → List SetUserCall × List String
  | [] => ([], [])
  | uid :: rest =>
    let r := assignGroup set_user_fails d group_id rest
    if dictHas d uid then
      (⟨uid, group_id⟩ :: r.1,
       (if set_user_fails uid group_id then ["set_user failed for " ++ uid] else []) ++ r.2)
    else r

/-- `configure_device_access_groups` (lines 128-182): allowed identifiers
are pushed to group "1", then denied identifiers to group "0". -/
def configure_device_access_groups (set_user_fails : String → String → Bool)
    (device_users : List DeviceUser)
    (allowed_users denied_users : List String) :
    List SetUserCall × List String :=
  let d := user_dict device_users
  let a := assignGroup set_user_fails d "1" allowed_users
  let den := assignGroup set_user_fails d "0" denied_users
  (a.1 ++ den.1, a.2 ++ den.2)

/-- One newline-delimited JSON line that `monitor_scans` of the bridge
prints to stdout (src/server/biometric-python-bridge.py). -/
inductive BridgeOutput where
  | statusMsg (message : String)
  | connectedMsg (ip : String) (port : Nat)
  | scanMsg (userId : String) (timestamp : String)
  | errorMsg (error : String)
deriving Repr, DecidableEq

/-- A call the bridge could make against the device terminal. -/
inductive DeviceAction where
  | unlock (seconds : Int)
  | disableDevice
  | enableDevice
deriving Repr, DecidableEq

/-- Whether a device action is a relay unlock. -/
def DeviceAction.isUnlock : DeviceAction → Bool
  | .unlock _ => true
  | _ => false

/-- `event_key = f"{uid}-{ts}"` in the bridge (line 96); a `None` timestamp
renders as the string "None". -/
def bridge_event_key (uid : String) (ts : Option String) : String :=
  uid ++ "-" ++ (match ts with | some t => t | none => "None")

/-- One delivery of the live-capture loop of the bridge (lines 86-110):
`none` models `attendance is None`; an empty uid is skipped; a key already
in `seen_events` is skipped; otherwise the key is recorded and a scan JSON
line is emitted, with `now` standing for `datetime.now().isoformat()` when
the event carries no timestamp.  The loop performs no device call at all. -/
def bridgeStep (now : String) (seen : List String)
    (ev : Option (String × Option String)) :
    List String × List BridgeOutput × List DeviceAction :=
  match ev with
  | none => (seen, [], [])
  | some (uid, ts) =>
    if uid = "" then (seen, [], [])
    else
      let key := bridge_event_key uid ts
      if seen.contains key then (seen, [], [])
      else
        (dedupInsert seen key,
         [.scanMsg uid (match ts with | some t => t | none => now)], [])

/-- The live-capture loop of the bridge folded over a list of deliveries. -/
def bridgeLoop (now : String) (seen : List String) :
    List (Option (String × Option String)) → List BridgeOutput × List DeviceAction
  | [] => ([], [])
  | ev :: rest =>
    let s := bridgeStep now seen ev
    let r := bridgeLoop now s.1 rest
    (s.2.1 ++ r.1, s.2.2 ++ r.2)

/-- One successful connection cycle of the `monitor_scans` command of the bridge
(lines 58-110): the startup status line, the connecting status line, the
connected line, the best-effort disable/enable during setup, then the
live-capture loop over the given deliveries.  The `unlock_seconds`
command-line argument is accepted (line 168) and passed in (line 169)
exactly as in the source, where the body never reads it. -/
def monitor_scans (ip : String) (port : Nat) (unlock_seconds : Int)
    (now : String) (events : List (Option (String × Option String))) :
    List BridgeOutput × List DeviceAction :=
  let pre : List BridgeOutput :=
    [.statusMsg "Starting biometric monitoring service",
     .statusMsg ("Connecting to " ++ ip),
     .connectedMsg ip port]
  let r := bridgeLoop now [] events
  (pre ++ r.1, [DeviceAction.disableDevice, DeviceAction.enableDevice] ++ r.2)

/-- C2: for a scan of an identifier in the denied set (and, per the
classification invariant, not in the allowed set) whose member snapshot is
present, no relay unlock is attempted, and the reason of the single report is
computed with strict priority: "inactive" whenever status is not "active";
otherwise "payment_pending"/"payment_overdue" when payment status is
pending/overdue; otherwise "expired". -/
theorem c2_denied_reason_priority (unlock_ok : Bool) (uid : String)
    (allowed_users denied_users : List String)
    (member_map : List (String × MemberInfo)) (m : MemberInfo)
    (ha : allowed_users.contains uid = false)
    (hd : denied_users.contains uid = true)
    (hm : dictGet member_map uid = some m) :
    (process_scan unlock_ok uid allowed_users denied_users member_map).unlock_attempts = 0 ∧
    (m.status ≠ "active" →
      (process_scan unlock_ok uid allowed_users denied_users member_map).reports =
        [⟨uid, some m.id, some m.name, false, "inactive"⟩]) ∧
    (m.status = "active" → m.payment_status ∈ ["pending", "overdue"] →
      (process_scan unlock_ok uid allowed_users denied_users member_map).reports =
        [⟨uid, some m.id, some m.name, false, "payment_" ++ m.payment_status⟩]) ∧
    (m.status = "active" → m.payment_status ∉ ["pending", "overdue"] →
      (process_scan unlock_ok uid allowed_users denied_users member_map).reports =
        [⟨uid, some m.id, some m.name, false, "expired"⟩]) := by
  have key : (process_scan unlock_ok uid allowed_users denied_users member_map).reports =
      [⟨uid, some m.id, some m.name, false,
        if m.status != "active" then "inactive"
        else if ["pending", "overdue"].contains m.payment_status then
          "payment_" ++ m.payment_status
        else "expired"⟩] := by
    unfold process_scan
    rw [ha, hd, hm]
    rfl
  have key0 : (process_scan unlock_ok uid allowed_users denied_users member_map).unlock_attempts = 0 := by
    unfold process_scan
    rw [ha, hd, hm]
    rfl
  refine ⟨key0, ?_, ?_, ?_⟩
  · intro hs
    have hb : (m.status != "active") = true := by simpa [bne_iff_ne] using hs
    rw [key, if_pos hb]
  · intro hs hp
    have hb : ¬((m.status != "active") = true) := by simp [hs]
    have hc : (["pending", "overdue"].contains m.payment_status) = true := by
      simpa using hp
    rw [key, if_neg hb, if_pos hc]
  · intro hs hp
    have hb : ¬((m.status != "active") = true) := by simp [hs]
    have hc : ¬((["pending", "overdue"].contains m.payment_status) = true) := by
      simpa using hp
    rw [key, if_neg hb, if_neg hc]

/-- Witness for C2: a concrete denied, active, overdue member gets reason
"payment_overdue" with no unlock attempted. -/
theorem c2_denied_reason_priority_holds :
    (process_scan true "1002" [] ["1002"]
      [("1002", ⟨7, "Bob", "active", none, none, "overdue"⟩)]).unlock_attempts = 0 ∧
    (process_scan true "1002" [] ["1002"]
      [("1002", ⟨7, "Bob", "active", none, none, "overdue"⟩)]).reports =
      [⟨"1002", some 7, some "Bob", false, "payment_overdue"⟩] := by
  have h := c2_denied_reason_priority true "1002" [] ["1002"]
    [("1002", ⟨7, "Bob", "active", none, none, "overdue"⟩)]
    ⟨7, "Bob", "active", none, none, "overdue"⟩ rfl rfl rfl
  exact ⟨h.1, h.2.2.1 rfl (by simp)⟩

/-- C3: for a scan of an identifier in the allowed set, `process_scan`
attempts the relay unlock exactly once and emits exactly one report:
allowed with reason "allowed" when the unlock call succeeds, denied with
reason "relay_error" when it raises; the single-report equation makes the
two outcomes mutually exclusive, and the embedding is a total function,
so the unlock failure does not propagate out of `process_scan`. -/
theorem c3_allowed_unlock_once (unlock_ok : Bool) (uid : String)
    (allowed_users denied_users : List String)
    (member_map : List (String × MemberInfo))
    (ha : allowed_users.contains uid = true) :
    (process_scan unlock_ok uid allowed_users denied_users member_map).unlock_attempts = 1 ∧
    (process_scan unlock_ok uid allowed_users denied_users member_map).reports =
      [⟨uid, (dictGet member_map uid).map (fun m => m.id),
        (match dictGet member_map uid with
         | some m => some m.name
         | none => some ("User " ++ uid)),
        unlock_ok, if unlock_ok then "allowed" else "relay_error"⟩] := by
  unfold process_scan
  rw [ha]
  cases unlock_ok <;> simp

/-- Witness for C3: a concrete allowed identifier with a failing relay gets
one unlock attempt and the single "relay_error" report. -/
theorem c3_allowed_unlock_once_holds :
    (process_scan false "1001" ["1001"] [] []).unlock_attempts = 1 ∧
    (process_scan false "1001" ["1001"] [] []).reports =
      [⟨"1001", none, some "User 1001", false, "relay_error"⟩] := by
  have h := c3_allowed_unlock_once false "1001" ["1001"] [] [] rfl
  refine ⟨h.1, ?_⟩
  rw [h.2]
  rfl

/-- C4: a delivery whose dedup key is already in the bounded seen-events
set leaves the set unchanged and invokes `process_scan` zero times, hence
performs no relay action and emits no attendance report. -/
theorem c4_duplicate_delivery_ignored (unlock_ok : Bool)
    (allowed_users denied_users : List String)
    (member_map : List (String × MemberInfo))
    (seen : List String) (uid ts : String)
    (h : seen.contains (event_key uid ts) = true) :
    mainMonitorStep unlock_ok allowed_users denied_users member_map seen uid ts =
      (seen, []) := by
  unfold mainMonitorStep
  by_cases huid : uid = ""
  · simp [huid]
  · have hmem : event_key uid ts ∈ seen := by simpa using h
    simp [huid, hmem]

/-- Witness for C4: with the key "1001-T1" already seen, redelivering the
event produces no scan processing. -/
theorem c4_duplicate_delivery_ignored_holds :
    mainMonitorStep true ["1001"] [] [] ["1001-T1"] "1001" "T1" =
      (["1001-T1"], []) :=
  c4_duplicate_delivery_ignored true ["1001"] [] [] ["1001-T1"] "1001" "T1" rfl

/-- C8: when the database file is missing or the query raises,
`get_members_from_db` returns the all-empty classification together with a
warning line; the embedding is a total function returning a pair rather
than an `Except`, reflecting that no exception reaches the caller. -/
theorem c8_store_failure_soft (parse : String → Option Int) (now : Int)
    (db_exists : Bool) (query : Except String (List MemberRow))
    (h : db_exists = false ∨ ∃ e, query = Except.error e) :
    (get_members_from_db parse now db_exists query).1 = ⟨[], [], []⟩ ∧
    (get_members_from_db parse now db_exists query).2 ≠ [] := by
  rcases h with h | ⟨e, he⟩
  · subst h
    simp [get_members_from_db]
  · subst he
    cases db_exists <;> simp [get_members_from_db]

/-- Witness for C8: with no database file, the classification is empty and
a warning is emitted. -/
theorem c8_store_failure_soft_holds :
    (get_members_from_db (fun _ => none) 0 false (Except.ok [])).1 = ⟨[], [], []⟩ ∧
    (get_members_from_db (fun _ => none) 0 false (Except.ok [])).2 ≠ [] :=
  c8_store_failure_soft (fun _ => none) 0 false (Except.ok []) (Or.inl rfl)

/-- C6: a setup phase entered after more than `db_refresh_interval` seconds
since the last successful load reloads the classification and runs the
access-group synchronization exactly once; a setup phase entered before
the interval elapses with the device already configured (which holds after
every completed setup phase, per the last conjunct) runs neither. -/
theorem c6_periodic_refresh (st : SupervisorState) (now : Int)
    (fresh : Classification) :
    ((now - st.last_db_refresh > db_refresh_interval) →
      (setupPhase st now fresh).2 = ⟨1, 1⟩) ∧
    (¬(now - st.last_db_refresh > db_refresh_interval) →
      st.device_configured = true →
      (setupPhase st now fresh).2 = ⟨0, 0⟩) ∧
    (setupPhase st now fresh).1.device_configured = true := by
  unfold setupPhase
  by_cases h : now - st.last_db_refresh > db_refresh_interval
  · simp [h]
  · cases hc : st.device_configured <;> simp [h, hc]

/-- Witness for C6: at 301 seconds past the last load the setup phase
reloads and resyncs once; at 100 seconds (device already configured) it
does neither. -/
theorem c6_periodic_refresh_holds :
    (setupPhase ⟨true, 0, ⟨[], [], []⟩⟩ 301 ⟨[], [], []⟩).2 = ⟨1, 1⟩ ∧
    (setupPhase ⟨true, 0, ⟨[], [], []⟩⟩ 100 ⟨[], [], []⟩).2 = ⟨0, 0⟩ :=
  ⟨(c6_periodic_refresh ⟨true, 0, ⟨[], [], []⟩⟩ 301 ⟨[], [], []⟩).1 (by decide),
   (c6_periodic_refresh ⟨true, 0, ⟨[], [], []⟩⟩ 100 ⟨[], [], []⟩).2.1 (by decide) rfl⟩

/-- The set_user calls and warnings of one assignment loop, in closed form:
every identifier with a matching device user is attempted, in input order,
independently of which attempts fail; warnings arise exactly from the
failing attempts. -/
theorem assignGroup_closed_form (f : String → String → Bool)
    (d : List (String × DeviceUser)) (g : String) (us : List String) :
    (assignGroup f d g us).1 =
      (us.filter (fun u => dictHas d u)).map (fun u => SetUserCall.mk u g) ∧
    (assignGroup f d g us).2 =
      (us.filter (fun u => dictHas d u && f u g)).map
        (fun u => "set_user failed for " ++ u) := by
  induction us with
  | nil => exact ⟨rfl, rfl⟩
  | cons uid rest ih =>
    unfold assignGroup
    by_cases h : dictHas d uid
    · by_cases hf : f uid g
      · simp [h, hf, ih.1, ih.2]
      · simp [h, hf, ih.1, ih.2]
    · simp [h, ih.1, ih.2]

/-- C9: during `configure_device_access_groups`, identifiers without a
matching enrolled device user are skipped (they appear in neither the
attempted set_user calls nor the warnings), the attempted calls cover
every matching identifier and do not depend on which per-user calls fail
(a single failure aborts nothing), and warnings arise exactly from the
failing attempts. -/
theorem c9_sync_best_effort (f f2 : String → String → Bool)
    (device_users : List DeviceUser) (allowed_users denied_users : List String) :
    (configure_device_access_groups f device_users allowed_users denied_users).1 =
      (allowed_users.filter (fun u => dictHas (user_dict device_users) u)).map
        (fun u => SetUserCall.mk u "1") ++
      (denied_users.filter (fun u => dictHas (user_dict device_users) u)).map
        (fun u => SetUserCall.mk u "0") ∧
    (configure_device_access_groups f device_users allowed_users denied_users).1 =
      (configure_device_access_groups f2 device_users allowed_users denied_users).1 ∧
    (configure_device_access_groups f device_users allowed_users denied_users).2 =
      (allowed_users.filter (fun u => dictHas (user_dict device_users) u && f u "1")).map
        (fun u => "set_user failed for " ++ u) ++
      (denied_users.filter (fun u => dictHas (user_dict device_users) u && f u "0")).map
        (fun u => "set_user failed for " ++ u) := by
  have ha := assignGroup_closed_form f (user_dict device_users) "1" allowed_users
  have hb := assignGroup_closed_form f (user_dict device_users) "0" denied_users
  have ha2 := assignGroup_closed_form f2 (user_dict device_users) "1" allowed_users
  have hb2 := assignGroup_closed_form f2 (user_dict device_users) "0" denied_users
  simp only [configure_device_access_groups]
  refine ⟨?_, ?_, ?_⟩
  · rw [ha.1, hb.1]
  · rw [ha.1, hb.1, ha2.1, hb2.1]
  · rw [ha.2, hb.2]

/-- The live-capture loop of the bridge makes no device call at all. -/
theorem bridgeLoop_no_device_calls (now : String) :
    ∀ (events : List (Option (String × Option String))) (seen : List String),
      (bridgeLoop now seen events).2 = [] := by
  intro events
  induction events with
  | nil => intro seen; rfl
  | cons ev rest ih =>
    intro seen
    simp only [bridgeLoop]
    rw [ih]
    cases ev with
    | none => rfl
    | some p =>
      obtain ⟨uid, ts⟩ := p
      unfold bridgeStep
      by_cases h : uid = ""
      · simp [h]
      · simp only [h, if_false]
        split
        · rfl
        · split <;> rfl

/-- C10: the monitor-scans command of the bridge triggers no relay unlock (its
device-action trace contains no unlock), and its output stream is
independent of the `unlock_seconds` argument: two runs over the same
deliveries that differ only in `unlock_seconds` produce identical output. -/
theorem c10_monitor_independent_of_unlock_seconds (ip : String) (port : Nat)
    (s1 s2 : Int) (now : String)
    (events : List (Option (String × Option String))) :
    monitor_scans ip port s1 now events = monitor_scans ip port s2 now events ∧
    (monitor_scans ip port s1 now events).2.filter DeviceAction.isUnlock = [] := by
  refine ⟨rfl, ?_⟩
  simp only [monitor_scans]
  rw [bridgeLoop_no_device_calls]
  rfl

/-- C5: a record whose biometric identifier is NULL, or empty after
trimming, or which is soft-deleted, contributes nothing to the
classification: the allowed set, the denied set and the member map are
the same as if the record were not in the store at all. -/
theorem c5_disqualified_row_excluded (parse : String → Option Int) (now : Int)
    (rows1 rows2 : List MemberRow) (r : MemberRow)
    (h : r.biometric_id = none ∨ trimId r = "" ∨
      ∃ s, r.deleted_at = some s ∧ s ≠ "") :
    classifyRows parse now (rows1 ++ r :: rows2) =
      classifyRows parse now (rows1 ++ rows2) := by
  unfold classifyRows
  by_cases hf : sqlFilter r = true
  · have htrim : trimId r = "" := by
      rcases h with h | h | ⟨s, hs, hne⟩
      · exfalso
        simp [sqlFilter, h] at hf
      · exact h
      · exfalso
        simp [sqlFilter, hs, hne] at hf
    have hstep : ∀ acc, processRow parse now acc r = acc := by
      intro acc
      unfold processRow
      rw [if_pos htrim]
    rw [List.filter_append, List.filter_append,
      List.filter_cons_of_pos hf,
      List.foldl_append, List.foldl_append, List.foldl_cons, hstep]
  · rw [List.filter_append, List.filter_append,
      List.filter_cons_of_neg (by simpa using hf)]

/-- A concrete soft-deleted member record for the C5 witness. -/
def deletedRow : MemberRow :=
  ⟨5, "Eve", some "77", "active", none, none, "current", some "2024-01-01"⟩

/-- Witness for C5: the soft-deleted record `deletedRow` changes nothing in
the classification. -/
theorem c5_disqualified_row_excluded_holds :
    classifyRows (fun _ => none) 0 ([] ++ deletedRow :: []) =
      classifyRows (fun _ => none) 0 ([] ++ []) :=
  c5_disqualified_row_excluded (fun _ => none) 0 [] [] deletedRow
    (Or.inr (Or.inr ⟨"2024-01-01", rfl, by decide⟩))

/-- Capping behaviour of one doubling step. -/
theorem min_double_cap (a : Nat) : min (min a 60 * 2) 60 = min (a * 2) 60 := by
  omega

/-- Sleeps of a run of consecutive connect failures starting from a delay
already of the form `min (2 ^ (m + 1)) 60`. -/
theorem supervisorRun_pow (n : Nat) : ∀ m : Nat,
    (supervisorRun (min (2 ^ (m + 1)) 60)
      (List.replicate n SupervisorEvent.connectFail)).2 =
      (List.range n).map (fun i => min (2 ^ (m + 1 + i)) 60) := by
  induction n with
  | zero => intro m; rfl
  | succ n ih =>
    intro m
    rw [List.replicate_succ]
    simp only [supervisorRun, supervisorStep]
    have hp : (2 : Nat) ^ (m + 1 + 1) = 2 ^ (m + 1) * 2 := pow_succ 2 (m + 1)
    have hd : min (min (2 ^ (m + 1)) 60 * 2) 60 = min (2 ^ (m + 1 + 1)) 60 := by
      rw [min_double_cap, hp]
    rw [hd, ih (m + 1), List.range_succ_eq_map, List.map_cons, List.map_map,
      List.singleton_append]
    congr 1
    apply List.map_congr_left
    intro i _
    simp only [Function.comp_apply, Nat.succ_eq_add_one]
    have he : m + 1 + 1 + i = m + 1 + (i + 1) := by omega
    rw [he]

/-- C7: each failing iteration sleeps the current backoff delay and then
doubles it, capped at 60 seconds (second conjunct); an iteration that
failed after a successful reconnect sleeps the freshly reset floor of 2
seconds and leaves the delay at 4 (third conjunct); and a run of
consecutive connect failures from the initial delay of 2 sleeps
2, 4, 8, ... capped at 60 (first conjunct). -/
theorem c7_exponential_backoff (d n : Nat) :
    (supervisorRun 2 (List.replicate n SupervisorEvent.connectFail)).2 =
      (List.range n).map (fun i => min (2 ^ (i + 1)) 60) ∧
    supervisorStep d SupervisorEvent.connectFail = (min (d * 2) 60, [d]) ∧
    supervisorStep d SupervisorEvent.monitorFail = (4, [2]) := by
  refine ⟨?_, rfl, rfl⟩
  have h := supervisorRun_pow n 0
  have e1 : min (2 ^ (0 + 1)) 60 = 2 := by norm_num
  rw [e1] at h
  rw [h]
  apply List.map_congr_left
  intro i _
  have he : 0 + 1 + i = i + 1 := by omega
  rw [he]

/-- Closed form of one row-processing step. -/
theorem processRow_eq (parse : String → Option Int) (now : Int)
    (acc : Classification) (r : MemberRow) :
    processRow parse now acc r =
      if trimId r = "" then acc
      else if memberAllowed parse now r then
        ⟨acc.allowed_users ++ [trimId r], acc.denied_users,
         (trimId r, memberInfoOf r) :: acc.member_map⟩
      else
        ⟨acc.allowed_users, acc.denied_users ++ [trimId r],
         (trimId r, memberInfoOf r) :: acc.member_map⟩ := by
  simp only [processRow]

/-- The allowed and denied lists produced by folding `processRow`: the ids
of qualifying rows satisfying (resp. failing) the eligibility decision,
appended in row order. -/
theorem classify_foldl (parse : String → Option Int) (now : Int)
    (rows : List MemberRow) : ∀ acc : Classification,
    (rows.foldl (processRow parse now) acc).allowed_users =
      acc.allowed_users ++
        (rows.filter (fun x => trimId x != "" && memberAllowed parse now x)).map trimId ∧
    (rows.foldl (processRow parse now) acc).denied_users =
      acc.denied_users ++
        (rows.filter (fun x => trimId x != "" && !memberAllowed parse now x)).map trimId := by
  induction rows with
  | nil => intro acc; simp
  | cons r rest ih =>
    intro acc
    rw [List.foldl_cons, processRow_eq]
    by_cases h : trimId r = ""
    · rw [if_pos h]
      have hpA : (trimId r != "" && memberAllowed parse now r) = false := by
        simp [h]
      have hpD : (trimId r != "" && !memberAllowed parse now r) = false := by
        simp [h]
      rw [List.filter_cons, List.filter_cons, if_neg (by simp [hpA]),
        if_neg (by simp [hpD])]
      exact ih acc
    · by_cases hA : memberAllowed parse now r = true
      · rw [if_neg h, if_pos hA]
        have hpA : (trimId r != "" && memberAllowed parse now r) = true := by
          simp [h, hA]
        have hpD : (trimId r != "" && !memberAllowed parse now r) = false := by
          simp [hA]
        rw [List.filter_cons, List.filter_cons, if_pos hpA, if_neg (by simp [hpD])]
        refine ⟨?_, ?_⟩
        · rw [(ih _).1]
          simp
        · exact (ih _).2
      · rw [if_neg h, if_neg hA]
        have hA2 : memberAllowed parse now r = false := by
          simpa using hA
        have hpA : (trimId r != "" && memberAllowed parse now r) = false := by
          simp [hA2]
        have hpD : (trimId r != "" && !memberAllowed parse now r) = true := by
          simp [h, hA2]
        rw [List.filter_cons, List.filter_cons, if_neg (by simp [hpA]), if_pos hpD]
        refine ⟨?_, ?_⟩
        · exact (ih _).1
        · rw [(ih _).2]
          simp

/-- C1: for a member record returned by the query (it satisfies the SQL
filter) that qualifies (non-empty trimmed biometric identifier, which the
spec additionally guarantees to be unique across the store), the
classification places its identifier in the allowed set exactly when
status is "active", the start date is absent/unparsable or satisfied, the
expiry date is absent/unparsable or satisfied, and the payment status is
neither "pending" nor "overdue"; a date field that fails to parse imposes
no constraint, since `start_ok`/`end_ok` are true whenever the parse
oracle reports a failure. -/
theorem c1_allowed_iff (parse : String → Option Int) (now : Int)
    (rows : List MemberRow) (r : MemberRow)
    (hmem : r ∈ rows) (hsql : sqlFilter r = true) (htrim : trimId r ≠ "")
    (hnodup : (((rows.filter sqlFilter).filter
      (fun x => trimId x != "")).map trimId).Nodup) :
    trimId r ∈ (classifyRows parse now rows).allowed_users ↔
      (r.status = "active" ∧ start_ok parse now r = true ∧
       end_ok parse now r = true ∧
       r.payment_status ∉ ["pending", "overdue"]) := by
  have hiff : memberAllowed parse now r = true ↔
      (r.status = "active" ∧ start_ok parse now r = true ∧
       end_ok parse now r = true ∧
       r.payment_status ∉ ["pending", "overdue"]) := by
    unfold memberAllowed status_ok payment_ok
    simp [and_assoc]
  rw [← hiff]
  have hall := (classify_foldl parse now (rows.filter sqlFilter) ⟨[], [], []⟩).1
  unfold classifyRows
  rw [hall]
  simp only [List.nil_append]
  have hrL : r ∈ rows.filter sqlFilter := List.mem_filter.mpr ⟨hmem, hsql⟩
  constructor
  · intro hin
    obtain ⟨x, hx, hxe⟩ := List.mem_map.mp hin
    have hx2 := List.mem_filter.mp hx
    have hxP := hx2.2
    have hxtrim : trimId x ≠ "" := by
      have := (Bool.and_eq_true _ _).mp hxP
      simpa using this.1
    have hxA : memberAllowed parse now x = true :=
      ((Bool.and_eq_true _ _).mp hxP).2
    have hxCL : x ∈ (rows.filter sqlFilter).filter (fun y => trimId y != "") :=
      List.mem_filter.mpr ⟨hx2.1, by simpa using hxtrim⟩
    have hrCL : r ∈ (rows.filter sqlFilter).filter (fun y => trimId y != "") :=
      List.mem_filter.mpr ⟨hrL, by simpa using htrim⟩
    have hxr : x = r := List.inj_on_of_nodup_map hnodup hxCL hrCL hxe
    rw [← hxr]
    exact hxA
  · intro hA
    refine List.mem_map.mpr ⟨r, List.mem_filter.mpr ⟨hrL, ?_⟩, rfl⟩
    simp [htrim, hA]

/-- A concrete active, paid-up member row for the C1 witness. -/
def activeRow : MemberRow :=
  ⟨1, "Alice", some "1001", "active", none, none, "current", none⟩

/-- Witness for C1: `activeRow` satisfies all four conditions and its
identifier is classified as allowed. -/
theorem c1_allowed_iff_holds :
    "1001" ∈ (classifyRows (fun _ => none) 0 [activeRow]).allowed_users :=
  (c1_allowed_iff (fun _ => none) 0 [activeRow] activeRow
      (List.mem_singleton.mpr rfl) rfl (by decide) (by decide)).mpr
    ⟨rfl, rfl, rfl, by decide⟩

end Biometric
